/-
Verification of the lambda-node-packager repository.

Shallow embedding of `src/index.js`, `src/utils.js` and the legacy copy of the
orchestrators in `src/unnamed/part_000`.  Pure computations (cache-key
derivation, S3-URI parsing, slugging, manifest normalization) are translated
directly; the stateful pipelines `archiveModules` / `archiveProject` are
translated as pure functions from an environment describing the outcomes of
the external collaborators (S3, npm, tar, zip, filesystem) to a result
together with an ordered trace of the side effects the pipeline performs.
-/
import Mathlib

namespace NPkg

/-! ## MD5 (crypto.createHash('md5')), RFC 1321, over byte lists -/

/-- Truncation to 32 bits, modelling JS/Node 32-bit hash-word arithmetic. -/
def u32 (n : Nat) : Nat := n % 4294967296

/-- Bitwise complement on 32-bit words. -/
def not32 (x : Nat) : Nat := 4294967295 - x

/-- Left rotation of a 32-bit word by `s` places (0 < s < 32). -/
def rotl32 (x s : Nat) : Nat := u32 (x * 2 ^ s) + x / 2 ^ (32 - s)

/-- The 64 MD5 sine-derived constants K[i]. -/
def md5K : List Nat :=
  [0xd76aa478, 0xe8c7b756, 0x242070db, 0xc1bdceee,
   0xf57c0faf, 0x4787c62a, 0xa8304613, 0xfd469501,
   0x698098d8, 0x8b44f7af, 0xffff5bb1, 0x895cd7be,
   0x6b901122, 0xfd987193, 0xa679438e, 0x49b40821,
   0xf61e2562, 0xc040b340, 0x265e5a51, 0xe9b6c7aa,
   0xd62f105d, 0x02441453, 0xd8a1e681, 0xe7d3fbc8,
   0x21e1cde6, 0xc33707d6, 0xf4d50d87, 0x455a14ed,
   0xa9e3e905, 0xfcefa3f8, 0x676f02d9, 0x8d2a4c8a,
   0xfffa3942, 0x8771f681, 0x6d9d6122, 0xfde5380c,
   0xa4beea44, 0x4bdecfa9, 0xf6bb4b60, 0xbebfbc70,
   0x289b7ec6, 0xeaa127fa, 0xd4ef3085, 0x04881d05,
   0xd9d4d039, 0xe6db99e5, 0x1fa27cf8, 0xc4ac5665,
   0xf4292244, 0x432aff97, 0xab9423a7, 0xfc93a039,
   0x655b59c3, 0x8f0ccc92, 0xffeff47d, 0x85845dd1,
   0x6fa87e4f, 0xfe2ce6e0, 0xa3014314, 0x4e0811a1,
   0xf7537e82, 0xbd3af235, 0x2ad7d2bb, 0xeb86d391]

/-- The 64 MD5 per-round rotation amounts s[i]. -/
def md5S : List Nat :=
  [7, 12, 17, 22, 7, 12, 17, 22, 7, 12, 17, 22, 7, 12, 17, 22,
   5, 9, 14, 20, 5, 9, 14, 20, 5, 9, 14, 20, 5, 9, 14, 20,
   4, 11, 16, 23, 4, 11, 16, 23, 4, 11, 16, 23, 4, 11, 16, 23,
   6, 10, 15, 21, 6, 10, 15, 21, 6, 10, 15, 21, 6, 10, 15, 21]

/-- Round-dependent nonlinear function F of MD5. -/
def md5F (i b c d : Nat) : Nat :=
  if i < 16 then (b &&& c) ||| (not32 b &&& d)
  else if i < 32 then (d &&& b) ||| (not32 d &&& c)
  else if i < 48 then b ^^^ c ^^^ d
  else c ^^^ (b ||| not32 d)

/-- Round-dependent message-word index g of MD5. -/
def md5G (i : Nat) : Nat :=
  if i < 16 then i
  else if i < 32 then (5 * i + 1) % 16
  else if i < 48 then (3 * i + 5) % 16
  else (7 * i) % 16

/-- One of the 64 mixing steps of an MD5 block. -/
def md5Mix (M : List Nat) (st : Nat × Nat × Nat × Nat) (i : Nat) : Nat × Nat × Nat × Nat :=
  let a := st.1
  let b := st.2.1
  let c := st.2.2.1
  let d := st.2.2.2
  let f := u32 (md5F i b c d + a + md5K.getD i 0 + M.getD (md5G i) 0)
  (d, u32 (b + rotl32 f (md5S.getD i 0)), b, c)

/-- Little-endian decomposition of `x` into `n` bytes. -/
def leBytes (n x : Nat) : List Nat := (List.range n).map (fun i => x / 256 ^ i % 256)

/-- Little-endian 32-bit words of one 64-byte block. -/
def md5Words (block : List Nat) : List Nat :=
  (List.range 16).map (fun j =>
    block.getD (4 * j) 0 + 256 * block.getD (4 * j + 1) 0 +
    65536 * block.getD (4 * j + 2) 0 + 16777216 * block.getD (4 * j + 3) 0)

/-- Compression of one 64-byte block into the running MD5 state. -/
def md5Block (block : List Nat) (st : Nat × Nat × Nat × Nat) : Nat × Nat × Nat × Nat :=
  let M := md5Words block
  let r := (List.range 64).foldl (md5Mix M) st
  (u32 (st.1 + r.1), u32 (st.2.1 + r.2.1), u32 (st.2.2.1 + r.2.2.1), u32 (st.2.2.2 + r.2.2.2))

/-- Iteration over `n` consecutive 64-byte blocks. -/
def md5Go : Nat → List Nat → Nat × Nat × Nat × Nat → Nat × Nat × Nat × Nat
  | 0, _, st => st
  | n + 1, l, st => md5Go n (l.drop 64) (md5Block (l.take 64) st)

/-- MD5 padding: 0x80, zeros to 56 mod 64, then the 8-byte little-endian bit length. -/
def md5Pad (msg : List Nat) : List Nat :=
  msg ++ [128] ++ List.replicate ((119 - msg.length % 64) % 64) 0 ++ leBytes 8 (8 * msg.length)

/-- The 16 digest bytes of a byte message. -/
def md5Bytes (msg : List Nat) : List Nat :=
  let padded := md5Pad msg
  let st := md5Go (padded.length / 64) padded (0x67452301, 0xefcdab89, 0x98badcfe, 0x10325476)
  leBytes 4 st.1 ++ leBytes 4 st.2.1 ++ leBytes 4 st.2.2.1 ++ leBytes 4 st.2.2.2

/-- Lowercase hexadecimal digit (0-9 land on '0'..'9', 10-15 on 'a'..'f'). -/
def hexDigitChar (n : Nat) : Char :=
  if n < 10 then Char.ofNat (48 + n) else Char.ofNat (87 + n)

/-- Lowercase hex rendering of a byte list, as produced by `.digest('hex')`. -/
def bytesToHex (bs : List Nat) : String :=
  ⟨bs.flatMap (fun b => [hexDigitChar (b / 16), hexDigitChar (b % 16)])⟩

/-- UTF-8 encoding of one character, modelling Node's 'utf8' input encoding. -/
def utf8Char (c : Char) : List Nat :=
  let n := c.toNat
  if n < 128 then [n]
  else if n < 2048 then [192 + n / 64, 128 + n % 64]
  else if n < 65536 then [224 + n / 4096, 128 + n / 64 % 64, 128 + n % 64]
  else [240 + n / 262144, 128 + n / 4096 % 64, 128 + n / 64 % 64, 128 + n % 64]

/-- UTF-8 bytes of a string. -/
def utf8Bytes (s : String) : List Nat := s.data.flatMap utf8Char

/-- Hex MD5 digest of a string: `crypto.createHash('md5').update(s, 'utf8').digest('hex')`. -/
def md5Hex (s : String) : String := bytesToHex (md5Bytes (utf8Bytes s))

/-! ## Data model -/

/-- Dependency map of a package.json, in JS object property (insertion) order.
JS objects keep string keys in insertion order (integer-like keys would be
enumerated first; the dependency names exercised here are not integer-like).
Keys are unique. -/
def DepsMap := List (String × String)
deriving DecidableEq, Repr

/-- Manifest (parsed package.json): a `name` and a `dependencies` map. -/
structure Manifest where
  name : String
  dependencies : DepsMap
deriving DecidableEq, Repr

/-- Parsed s3 location, `{Bucket, Key}` as returned by `utils.parseS3URI`. -/
structure S3Loc where
  Bucket : String
  Key : String
deriving DecidableEq, Repr

/-! ## utils.js -/

/-- Characters of the bucket-body class `[a-z0-9.-]` of `S3_LOCATION_REGEX`. -/
def isBucketChar (c : Char) : Bool :=
  c.isLower || c.isDigit || c = '.' || c = '-'

/-- Characters that the JS regex `.` (no `s` flag) does NOT match. -/
def isJsLineTerm (c : Char) : Bool :=
  c = '\n' || c = '\r' || c = '\u2028' || c = '\u2029'

/-- parseS3URI from src/utils.js: matches the whole string against
`^s3://([a-z]{1}[a-z0-9.-]{5,62})(?:/(.*))?$` and returns `{Bucket, Key}`
(`Key` is `''` when group 2 is absent), or `null` on no match.  The bucket
segment cannot contain `/`, so it is exactly the run up to the first `/` after
the scheme; `(.*)` cannot match a JS line terminator. -/
def parseS3URI (s : String) : Option S3Loc :=
  let l := s.data
  if l.take 5 = ['s', '3', ':', '/', '/'] then
    let rest := l.drop 5
    let seg := rest.takeWhile (fun c => c ≠ '/')
    let rem := rest.drop seg.length
    match seg with
    | [] => none
    | c0 :: cs =>
      if c0.isLower && cs.all isBucketChar && 5 ≤ cs.length && cs.length ≤ 62 then
        match rem with
        | [] => some ⟨⟨seg⟩, ""⟩
        | _ :: key =>
          if key.all (fun c => !isJsLineTerm c) then some ⟨⟨seg⟩, ⟨key⟩⟩ else none
      else none
  else none

/-- parseS3URI applied to a possibly-null uri.  `regex.exec(null)` coerces
`null` to the string `"null"`, which does not match, so `null` yields `null`. -/
def parseS3URIOpt : Option String → Option S3Loc
  | none => none
  | some s => parseS3URI s

/-- Fallback list `MODULES` of preinstalled packages in src/utils.js. -/
def MODULES : List String := ["aws-sdk"]

/-- availableModules from src/utils.js.  `runtimeLs` is `none` when
`LAMBDA_RUNTIME_DIR` is unset, otherwise the raw stdout of
`ls -A $LAMBDA_RUNTIME_DIR/node_modules` (the subprocess is an external
collaborator).  An empty listing falls back to `MODULES`; a non-empty one is
split on newlines and filtered to non-empty names not starting with `.`. -/
def availableModules (runtimeLs : Option String) : List String :=
  match runtimeLs with
  | none => MODULES
  | some raw =>
    if raw.length = 0 then MODULES
    else (raw.splitOn "\n").filter (fun item => item.length > 0 && !item.startsWith ".")

/-- Deletion of one key from a JS object (`delete obj[k]`), preserving the
order of the remaining properties. -/
def eraseKey (d : DepsMap) (k : String) : DepsMap :=
  List.filter (fun kv => kv.1 ≠ k) d

/-- Contents of a dependencies map after deleting every excluded module,
in the loop order of `removePreinstalledModules`. -/
def eraseKeys (d : DepsMap) (ks : List String) : DepsMap := ks.foldl eraseKey d

/-- removePreinstalledModules from src/utils.js, with the JS reference
semantics made explicit.  The input manifest object is its `name` together
with a reference `depsRef` into a heap `h` of dependency maps (the object's
`dependencies` field).  `Object.assign({}, packageJson)` copies the top-level
fields only, so the result object carries the SAME `depsRef`, and the
subsequent `delete result.dependencies[module]` deletions update the single
shared heap cell.  Returns the result object and the updated heap. -/
def removePreinstalledModules (runtimeLs : Option String) (h : Nat → DepsMap)
    (name : String) (depsRef : Nat) : (String × Nat) × (Nat → DepsMap) :=
  ((name, depsRef), fun r =>
    if r = depsRef then eraseKeys (h depsRef) (availableModules runtimeLs) else h r)

/-- Value-level content of `removePreinstalledModules(packageJson).dependencies`
(equal to the post-call content of the input's own map, see
`removePreinstalledModules`). -/
def clearedDependencies (runtimeLs : Option String) (d : DepsMap) : DepsMap :=
  eraseKeys d (availableModules runtimeLs)

/-! ## JSON.stringify of a flat string-valued object -/

/-- JSON escaping of one character as performed by `JSON.stringify`: the two
mandatory escapes, the five short control escapes, `\u00XX` for the remaining
control characters, and the character itself otherwise. -/
def jsonEscapeChar (c : Char) : String :=
  if c = '"' then "\\\""
  else if c = '\\' then "\\\\"
  else if c = '\x08' then "\\b"
  else if c = '\x09' then "\\t"
  else if c = '\x0a' then "\\n"
  else if c = '\x0c' then "\\f"
  else if c = '\x0d' then "\\r"
  else if c.toNat < 32 then
    let hi := c.toNat / 16
    let lo := c.toNat % 16
    "\\u00" ++ ⟨[hexDigitChar hi, hexDigitChar lo]⟩
  else ⟨[c]⟩

/-- JSON string literal for `s`. -/
def jsonQuote (s : String) : String :=
  "\"" ++ String.join (s.data.map jsonEscapeChar) ++ "\""

/-- `JSON.stringify(dependencies)`: the object is serialized in its own
property order — no key sorting happens anywhere in the code. -/
def jsonStringifyDeps (d : DepsMap) : String :=
  "\x7b" ++ String.intercalate "," (d.map (fun kv => jsonQuote kv.1 ++ ":" ++ jsonQuote kv.2)) ++ "\x7d"

/-- Checksum of the cleared dependency map, src/index.js line 63:
`crypto.createHash('md5').update(JSON.stringify(dependencies), 'utf8').digest('hex')`. -/
def checksumOf (d : DepsMap) : String := md5Hex (jsonStringifyDeps d)

/-! ## Name derivation -/

/-- JS whitespace class `\s`. -/
def isJsWs (c : Char) : Bool :=
  c = ' ' || c = '\t' || c = '\n' || c = '\x0b' || c = '\x0c' || c = '\r' ||
  c = '\u00a0' || c = '\u1680' || ('\u2000' ≤ c && c ≤ '\u200a') ||
  c = '\u2028' || c = '\u2029' || c = '\u202f' || c = '\u205f' ||
  c = '\u3000' || c = '\ufeff'

/-- Core of `name.replace(/\s+/, '-')` (src/index.js line 45): the regex has
no `g` flag, so only the first (leftmost, maximal) whitespace run is replaced
by a single hyphen; everything after it, later whitespace included, is kept. -/
def slugCore : List Char → List Char
  | [] => []
  | c :: cs => if isJsWs c then '-' :: cs.dropWhile isJsWs else c :: slugCore cs

/-- Project-name slug `packageJson.name.replace(/\s+/, '-')`. -/
def slugFirstWs (s : String) : String := ⟨slugCore s.data⟩

/-- Instantiation of `utils.substitute` at the constant template
`modules-${projectName}-${checksum}`.  The general helper scans the template
for `${ident}` and splices the values with `String.replace`; on this constant
template with the slug and hex-checksum values produced by `archiveModules`
that is exactly this concatenation (values are treated as inert text; JS
replacement-pattern expansion for values containing `$` is not exercised by
the repository and is not modelled). -/
def modulesArchiveStem (projectName checksum : String) : String :=
  "modules-" ++ projectName ++ "-" ++ checksum

/-- Instantiation of `utils.substitute` at the constant template
`archived-${projectName}`, under the same conventions as
`modulesArchiveStem`. -/
def archivedStem (projectName : String) : String := "archived-" ++ projectName

/-- The dependency-archive file name computed by `archiveModules` for a given
runtime exclusion environment and manifest (src/index.js line 66). -/
def archiveNameOf (runtimeLs : Option String) (m : Manifest) : String :=
  modulesArchiveStem (slugFirstWs m.name) (checksumOf (clearedDependencies runtimeLs m.dependencies)) ++ ".tgz"

/-- `` `${cache.Key}/${archiveName}`.replace(/^\/+/, '') `` (src/index.js line 73). -/
def dropLeadingSlashes (s : String) : String := ⟨s.data.dropWhile (fun c => c = '/')⟩

/-! ## Pipeline model

The two orchestrators perform external side effects (S3, npm, tar/zip
subprocesses, filesystem).  They are embedded as pure functions from an
environment — fixing the data and outcomes the collaborators deliver — to a
`Run α`: the value the JS promise settles with (`Except` an error on
rejection or a synchronous throw) paired with the ordered trace of side
effects performed up to that point. -/

/-- JS error values distinguished by the pipelines. -/
inductive JsError where
  | typeError
  | invalidSourceName
  | jsError (msg : String)
deriving DecidableEq, Repr

/-- One observable external side effect of a pipeline run. -/
inductive Effect where
  | mkdtemp (dir : String)
  | mkdirp (dir : String)
  | writeFile (path : String)
  | s3probe (op : String) (bucket key : String)
  | s3get (bucket key : String)
  | npmInstall (cwd : String)
  | tarCreate (src dst : String)
  | untarX (src dst : String)
  | s3upload (bucket key : String)
  | zipCreate (src dst : String)
  | copyFile (src dst : String)
  | rmrf (dir : String)
  | unlinkFile (path : String)
deriving DecidableEq, Repr

/-- Result of a pipeline run: settled value and ordered effect trace. -/
abbrev Run (α : Type) := Except JsError α × List Effect

/-- Whether an effect is an installer invocation (`npm install` subprocess). -/
def Effect.isInstall : Effect → Bool
  | .npmInstall _ => true
  | _ => false

/-- Whether an effect is a compressor invocation (`utils.tar`). -/
def Effect.isTarCreate : Effect → Bool
  | .tarCreate _ _ => true
  | _ => false

/-- Whether an effect is a cache probe (`headObject`/`getObject`). -/
def Effect.isS3probe : Effect → Bool
  | .s3probe _ _ _ => true
  | _ => false

/-- Whether an effect is a cache upload (`s3.upload`). -/
def Effect.isS3upload : Effect → Bool
  | .s3upload _ _ => true
  | _ => false

/-- Options of `archiveModules` (src/index.js line 40).  `source` is the
resolved package.json object: the code accepts an object, a `.json` path or a
JSON string and resolves them to the same object before use, so the resolved
manifest is the input of the model. -/
structure ModulesOpts where
  source : Manifest
  cacheUri : Option String := none
  keep : Bool := false
  workDir : Option String := none
deriving Repr

/-- Collaborator outcomes consumed by one `archiveModules` run.
`runtimeLs` feeds `availableModules`; `tmpWorkDir` is the directory
`fs.mkdtempSync` would create; `probe` is how `s3[operation](cache).promise()`
settles, `installResult`/`tarResult` whether the `npm install` and `tar`
subprocesses succeed, `uploadResult` how `s3.upload(...).promise()` settles and
`untarResult` whether the final `utils.untar` succeeds. -/
structure BuildEnv where
  runtimeLs : Option String := none
  tmpWorkDir : String := "/tmp/modules-XXXXXX"
  probe : Except JsError Unit := .error (.jsError "NotFound")
  installResult : Except JsError Unit := .ok ()
  tarResult : Except JsError Unit := .ok ()
  uploadResult : Except JsError Unit := .ok ()
  untarResult : Except JsError Unit := .ok ()
deriving Repr

/-- Tail of `archiveModules` (src/index.js lines 121-127): optionally untar the
archive into the working directory when `keep` is set, then unconditionally
`rm -rf package-modules` relative to the working directory, and resolve with
the archive name. -/
def finishModules (env : BuildEnv) (opts : ModulesOpts)
    (workDir pckgDir archivePath archiveName : String) (t : List Effect) : Run String :=
  if opts.keep then
    let t := t ++ [Effect.untarX archivePath workDir]
    match env.untarResult with
    | .error e => (.error e, t)
    | .ok _ => (.ok archiveName, t ++ [Effect.rmrf pckgDir])
  else (.ok archiveName, t ++ [Effect.rmrf pckgDir])

/-- Miss path of `archiveModules` (src/index.js lines 93-119): write the
cleared package.json into the install directory, run
`npm install --production --no-optional` there, tar the resulting
`node_modules`, and, when a cache is configured, upload the archive to it.
An installer, compressor or upload failure rejects the run at that point. -/
def missBuild (env : BuildEnv) (opts : ModulesOpts)
    (workDir pckgDir installDir archivePath archiveName : String)
    (cacheTarget : Option (String × String)) (t : List Effect) : Run String :=
  let t := t ++ [Effect.writeFile (installDir ++ "/package.json"), Effect.npmInstall installDir]
  match env.installResult with
  | .error e => (.error e, t)
  | .ok _ =>
    let t := t ++ [Effect.tarCreate (installDir ++ "/node_modules") archivePath]
    match env.tarResult with
    | .error e => (.error e, t)
    | .ok _ =>
      match cacheTarget with
      | some bk =>
        let t := t ++ [Effect.s3upload bk.1 bk.2]
        match env.uploadResult with
        | .error e => (.error e, t)
        | .ok _ => finishModules env opts workDir pckgDir archivePath archiveName t
      | none => finishModules env opts workDir pckgDir archivePath archiveName t

/-- archiveModules from src/index.js (lines 40-128).  Derives the slug and the
dependency checksum, builds the archive name, and either finds the archive in
the configured cache (probing with `getObject` when `keep` is set, else
`headObject`; any probe rejection is caught and treated as a miss) or builds
it via `missBuild`.  The trace records the temp-dir creation (only when the
caller supplied no `workDir`), the two `utils.mkdir` calls, and everything the
taken path performs. -/
def archiveModules (env : BuildEnv) (opts : ModulesOpts) : Run String :=
  let projectName := slugFirstWs opts.source.name
  let workDir := opts.workDir.getD env.tmpWorkDir
  let pckgDir := workDir ++ "/package-modules"
  let installDir := pckgDir ++ "/npm"
  let t := (if opts.workDir.isNone then [Effect.mkdtemp workDir] else []) ++
    [Effect.mkdirp pckgDir, Effect.mkdirp installDir]
  let checksum := checksumOf (clearedDependencies env.runtimeLs opts.source.dependencies)
  let archiveName := modulesArchiveStem projectName checksum ++ ".tgz"
  let archivePath := pckgDir ++ "/" ++ archiveName
  match parseS3URIOpt opts.cacheUri with
  | some c =>
    let ckey := dropLeadingSlashes (c.Key ++ "/" ++ archiveName)
    let op := if opts.keep then "getObject" else "headObject"
    let t := t ++ [Effect.s3probe op c.Bucket ckey]
    match env.probe with
    | .ok _ =>
      let t := if opts.keep then t ++ [Effect.writeFile archivePath] else t
      finishModules env opts workDir pckgDir archivePath archiveName t
    | .error _ =>
      missBuild env opts workDir pckgDir installDir archivePath archiveName
        (some (c.Bucket, ckey)) t
  | none =>
    missBuild env opts workDir pckgDir installDir archivePath archiveName none t

/-! ## archiveProject helpers -/

/-- First (and only) element of `str.match(/[^\/]*.tgz$/g)`.  The pattern is
anchored at the end: the string must end in `tgz` preceded by one character
that the un-escaped JS `.` matches (any char except a line terminator — note
the dot is NOT escaped in the source, so `footgz` matches).  `[^/]*` cannot
cross a slash, so the leftmost match starts right after the last `/` that
precedes the dot-position.  `none` models `match()` returning `null`. -/
def tgzFirstMatch (ks : String) : Option String :=
  match ks.data.reverse with
  | 'z' :: 'g' :: 't' :: c :: restRev =>
    if isJsLineTerm c then none
    else some ⟨(restRev.takeWhile (fun x => x ≠ '/')).reverse ++ [c, 't', 'g', 'z']⟩
  | _ => none

/-- `name.replace(/\.[^.]*$/, '.zip')`: replace the final extension (from the
last dot) by `.zip`; a dot-free name is returned unchanged. -/
def replaceExtWithZip (s : String) : String :=
  if s.data.contains '.' then
    ⟨((s.data.reverse.dropWhile (fun c => c ≠ '.')).drop 1).reverse ++ ['.', 'z', 'i', 'p']⟩
  else s

/-- `targetUri.endsWith('.zip')`. -/
def endsWithZip (s : String) : Bool := s.data.reverse.take 4 == ['p', 'i', 'z', '.']

/-- Options of `archiveProject` in src/index.js (line 136). -/
structure ProjOpts where
  sourceUri : String
  targetUri : String
  cacheUri : Option String := none
  keep : Bool := false
deriving Repr

/-- Collaborator outcomes consumed by one `archiveProject` run (src/index.js):
the temp root `fs.mkdtempSync` creates, how the source fetch settles, whether
extraction of the bundle succeeds, the parse result of the extracted
`package.json`, the environment of the delegated `archiveModules` call, and
the outcomes of the project compression and of the final upload/copy. -/
structure ProjEnv where
  rootTmp : String := "/tmp/packager-XXXXXX"
  fetchResult : Except JsError Unit := .ok ()
  untarBundle : Except JsError Unit := .ok ()
  bundleManifest : Except JsError Manifest := .ok ⟨"demo", []⟩
  buildEnv : BuildEnv := {}
  zipResult : Except JsError Unit := .ok ()
  uploadResult : Except JsError Unit := .ok ()
deriving Repr

/-- archiveProject from src/index.js (lines 136-240).  Validation and name
derivation happen synchronously before any filesystem or network activity;
`(source.Key || source).match(...)[0]` throws a `TypeError` when the match is
`null` (and also when the parsed source has an empty falsy `Key`, since then
`.match` is called on the `{Bucket, Key}` object).  The promise chain
`fetchProject → buildModules → createArchive → uploadPackage` has NO rejection
handler: on any stage failure the error propagates to the caller and the
trailing success handler — the only place `cleanup()` is invoked (when `keep`
is unset) — never runs. -/
def archiveProject (env : ProjEnv) (opts : ProjOpts) : Run String :=
  let src := parseS3URI opts.sourceUri
  let keyStr : Option String :=
    match src with
    | some l => if l.Key = "" then none else some l.Key
    | none => some opts.sourceUri
  match keyStr with
  | none => (.error .typeError, [])
  | some ks =>
    match tgzFirstMatch ks with
    | none => (.error .typeError, [])
    | some inFileName =>
      if inFileName = "" then (.error .invalidSourceName, [])
      else
        let outFileName := replaceExtWithZip inFileName
        let targetFileUri :=
          if endsWithZip opts.targetUri then opts.targetUri
          else dropLeadingSlashes (opts.targetUri ++ "/" ++ outFileName)
        let rootDir := env.rootTmp
        let pckgDir := rootDir ++ "/package"
        let filePath := rootDir ++ "/" ++ inFileName
        let t := [Effect.mkdtemp rootDir]
        let t := t ++
          (match src with
           | some l => [Effect.s3get l.Bucket l.Key]
           | none => [Effect.copyFile opts.sourceUri filePath])
        match env.fetchResult with
        | .error e => (.error e, t)
        | .ok _ =>
          let t := t ++ (if src.isSome then [Effect.writeFile filePath] else []) ++
            [Effect.untarX filePath rootDir]
          match env.untarBundle with
          | .error e => (.error e, t)
          | .ok _ =>
            match env.bundleManifest with
            | .error e => (.error e, t)
            | .ok manifest =>
              let projectName := slugFirstWs manifest.name
              let inner := archiveModules env.buildEnv
                { source := manifest, workDir := some pckgDir,
                  cacheUri := opts.cacheUri, keep := true }
              let t := t ++ inner.2
              match inner.1 with
              | .error e => (.error e, t)
              | .ok _ =>
                let zipName := archivedStem projectName ++ ".zip"
                let zipPath := rootDir ++ "/" ++ zipName
                let t := t ++ [Effect.zipCreate pckgDir zipPath]
                match env.zipResult with
                | .error e => (.error e, t)
                | .ok _ =>
                  let t := t ++
                    (match parseS3URI targetFileUri with
                     | some tgt => [Effect.s3upload tgt.Bucket tgt.Key]
                     | none => [Effect.copyFile zipPath targetFileUri])
                  match env.uploadResult with
                  | .error e => (.error e, t)
                  | .ok _ =>
                    if opts.keep then (.ok targetFileUri, t)
                    else (.ok targetFileUri, t ++ [Effect.rmrf rootDir])

/-! ## Legacy pipeline (src/unnamed/part_000) -/

/-- Tail of the legacy archiveModules (part_000 lines 123-130): without `keep`
it calls `fs.unlinkSync(workDir)` — `unlink` on a directory always throws
(`EISDIR`), so the cleanup attempt itself rejects the run; with `keep` it just
resolves with the archive name. -/
def finishModulesLegacy (opts : ModulesOpts) (workDir archiveName : String)
    (t : List Effect) : Run String :=
  if opts.keep then (.ok archiveName, t)
  else (.error (.jsError "EISDIR"), t ++ [Effect.unlinkFile workDir])

/-- Miss path of the legacy archiveModules (part_000 lines 96-121): the
install runs directly in `package-modules` (no `npm` subdirectory) and the
archive is written next to it in the working directory. -/
def missBuildLegacy (env : BuildEnv) (opts : ModulesOpts)
    (workDir pckgDir archivePath archiveName : String)
    (cacheTarget : Option (String × String)) (t : List Effect) : Run String :=
  let t := t ++ [Effect.writeFile (pckgDir ++ "/package.json"), Effect.npmInstall pckgDir]
  match env.installResult with
  | .error e => (.error e, t)
  | .ok _ =>
    let t := t ++ [Effect.tarCreate (pckgDir ++ "/node_modules") archivePath]
    match env.tarResult with
    | .error e => (.error e, t)
    | .ok _ =>
      match cacheTarget with
      | some bk =>
        let t := t ++ [Effect.s3upload bk.1 bk.2]
        match env.uploadResult with
        | .error e => (.error e, t)
        | .ok _ => finishModulesLegacy opts workDir archiveName t
      | none => finishModulesLegacy opts workDir archiveName t

/-- archiveModules from src/unnamed/part_000 (lines 40-131).  Differences from
src/index.js: single `package-modules` directory (no `npm` subdirectory), the
archive lives directly under the working directory, a cache hit with a body
unpacks immediately, and the non-`keep` cleanup is `fs.unlinkSync(workDir)`. -/
def archiveModulesLegacy (env : BuildEnv) (opts : ModulesOpts) : Run String :=
  let projectName := slugFirstWs opts.source.name
  let workDir := opts.workDir.getD env.tmpWorkDir
  let pckgDir := workDir ++ "/package-modules"
  let t := (if opts.workDir.isNone then [Effect.mkdtemp workDir] else []) ++
    [Effect.mkdirp pckgDir]
  let checksum := checksumOf (clearedDependencies env.runtimeLs opts.source.dependencies)
  let archiveName := modulesArchiveStem projectName checksum ++ ".tgz"
  let archivePath := workDir ++ "/" ++ archiveName
  match parseS3URIOpt opts.cacheUri with
  | some c =>
    let ckey := dropLeadingSlashes (c.Key ++ "/" ++ archiveName)
    let op := if opts.keep then "getObject" else "headObject"
    let t := t ++ [Effect.s3probe op c.Bucket ckey]
    match env.probe with
    | .ok _ =>
      if opts.keep then
        let t := t ++ [Effect.writeFile archivePath, Effect.untarX archivePath workDir]
        match env.untarResult with
        | .error e => (.error e, t)
        | .ok _ => finishModulesLegacy opts workDir archiveName t
      else finishModulesLegacy opts workDir archiveName t
    | .error _ =>
      missBuildLegacy env opts workDir pckgDir archivePath archiveName
        (some (c.Bucket, ckey)) t
  | none =>
    missBuildLegacy env opts workDir pckgDir archivePath archiveName none t

/-- Options of the legacy archiveProject (part_000 line 139). -/
structure ProjOptsLegacy where
  sourceUri : String
  targetUri : String
  cacheUri : Option String := none
  disableUpload : Option Bool := none
  outkey : Option String := none
deriving Repr

/-- Collaborator outcomes consumed by one legacy archiveProject run.
`isLambda` models `LAMBDA_TASK_ROOT && AWS_EXECUTION_ENV`; `uploadLocation`
is the value the S3 upload resolves with. -/
structure ProjEnvLegacy where
  rootTmp : String := "/tmp/packager-XXXXXX"
  isLambda : Bool := true
  fetchResult : Except JsError Unit := .ok ()
  untarBundle : Except JsError Unit := .ok ()
  bundleManifest : Except JsError Manifest := .ok ⟨"demo", []⟩
  buildEnv : BuildEnv := {}
  zipResult : Except JsError Unit := .ok ()
  uploadResult : Except JsError Unit := .ok ()
  uploadLocation : String := "https://example/location"
deriving Repr

/-- archiveProject from src/unnamed/part_000 (lines 139-238).  The promise
chain carries `.catch(error => { cleanup(); throw error; })`: every stage
failure inside the chain deletes the working root and re-raises the original
error.  `source` has no string fallback here (`parseS3URI(sourceUri)` only),
so a non-s3 source makes `source.Key` a property access on `null`
(synchronous `TypeError` before the chain and before any filesystem work);
off-lambda, `utils.copyFile(source, ...)` receives the parsed OBJECT and
`fs.createReadStream` throws inside the promise executor, which surfaces as a
rejection into the chain and hence is cleaned up.  The legacy build is always
delegated with `keep: true` (part_000 line 204), and the project name in the
output archive is the literal `'???'`.  The resolved value is the raw S3
upload response when uploading, and `undefined` (here `none`) after a local
copy. -/
def archiveProjectLegacy (env : ProjEnvLegacy) (opts : ProjOptsLegacy) : Run (Option String) :=
  match parseS3URI opts.sourceUri with
  | none => (.error .typeError, [])
  | some src =>
    match tgzFirstMatch src.Key with
    | none => (.error .typeError, [])
    | some inFileName =>
      if inFileName = "" then (.error .invalidSourceName, [])
      else
        let outkey := opts.outkey.getD (replaceExtWithZip src.Key)
        let rootDir := env.rootTmp
        let pckgDir := rootDir ++ "/package"
        let filePath := rootDir ++ "/" ++ inFileName
        let t := [Effect.mkdtemp rootDir]
        let fail := fun (t : List Effect) (e : JsError) =>
          ((.error e, t ++ [Effect.rmrf rootDir]) : Run (Option String))
        if env.isLambda then
          let t := t ++ [Effect.s3get src.Bucket src.Key]
          match env.fetchResult with
          | .error e => fail t e
          | .ok _ =>
            let t := t ++ [Effect.writeFile filePath, Effect.untarX filePath rootDir]
            match env.untarBundle with
            | .error e => fail t e
            | .ok _ =>
              match env.bundleManifest with
              | .error e => fail t e
              | .ok manifest =>
                let inner := archiveModulesLegacy env.buildEnv
                  { source := manifest, workDir := some pckgDir,
                    cacheUri := opts.cacheUri, keep := true }
                let t := t ++ inner.2
                match inner.1 with
                | .error e => fail t e
                | .ok _ =>
                  let zipName := archivedStem "???" ++ ".zip"
                  let zipPath := rootDir ++ "/" ++ zipName
                  let t := t ++ [Effect.zipCreate pckgDir zipPath]
                  match env.zipResult with
                  | .error e => fail t e
                  | .ok _ =>
                    if opts.disableUpload = some false then
                      match parseS3URI opts.targetUri with
                      | none => fail t .typeError
                      | some tgt =>
                        let t := t ++ [Effect.s3upload tgt.Bucket tgt.Key]
                        match env.uploadResult with
                        | .error e => fail t e
                        | .ok _ =>
                          (.ok (some env.uploadLocation), t ++ [Effect.rmrf rootDir])
                    else
                      let t := t ++ [Effect.copyFile zipPath outkey]
                      match env.uploadResult with
                      | .error e => fail t e
                      | .ok _ => (.ok none, t ++ [Effect.rmrf rootDir])
        else fail t .typeError

/-! ## Supporting lemmas and fidelity checks -/

set_option maxRecDepth 1000000

deriving instance DecidableEq for Except

/-- Fidelity of the MD5 embedding: the RFC 1321 test vectors. -/
theorem md5Hex_rfc_vectors :
    md5Hex "" = "d41d8cd98f00b204e9800998ecf8427e" ∧
    md5Hex "abc" = "900150983cd24fb0d6963f7d28e17f72" ∧
    md5Hex "The quick brown fox jumps over the lazy dog" = "9e107d9d372bb6826bd81d3542a419d6" := by
  refine ⟨by decide, by decide, by decide⟩

/-- Parsing a null cache uri yields null (`exec` coerces `null` to `"null"`). -/
theorem parseS3URIOpt_none : parseS3URIOpt none = none := rfl

/-- Examples of the three malformed cache-location classes all parsing to
`null`: a plain string, an uppercase (pattern-violating) bucket, and a bucket
shorter than the 6-character minimum. -/
theorem parseS3URI_malformed_examples :
    parseS3URI "/var/task/cache" = none ∧
    parseS3URI "s3://MyBucket/key" = none ∧
    parseS3URI "s3://abc/key" = none := by
  refine ⟨by decide, by decide, by decide⟩

/-- Dropping an all-whitespace prefix stops exactly at a non-whitespace head. -/
theorem dropWhile_ws_append (w s : List Char)
    (hw : ∀ c ∈ w, isJsWs c = true)
    (hs : ∀ c, s.head? = some c → isJsWs c = false) :
    (w ++ s).dropWhile isJsWs = s := by
  induction w with
  | nil =>
    cases s with
    | nil => rfl
    | cons c cs => simp [List.dropWhile, hs c rfl]
  | cons c w ih =>
    simp only [List.cons_append, List.dropWhile, hw c (List.mem_cons_self c w)]
    exact ih (fun x hx => hw x (List.mem_cons_of_mem c hx))

/-- Characterization of `slugCore` on a decomposed input: a whitespace-free
prefix, a non-empty whitespace run, and a remainder not starting with
whitespace. -/
theorem slugCore_decomp (p w s : List Char)
    (hp : ∀ c ∈ p, isJsWs c = false) (hw0 : w ≠ [])
    (hw : ∀ c ∈ w, isJsWs c = true)
    (hs : ∀ c, s.head? = some c → isJsWs c = false) :
    slugCore (p ++ w ++ s) = p ++ '-' :: s := by
  induction p with
  | nil =>
    cases w with
    | nil => exact absurd rfl hw0
    | cons c w2 =>
      simp only [List.nil_append, List.cons_append, slugCore,
        hw c (List.mem_cons_self c w2), if_pos rfl]
      simp [dropWhile_ws_append w2 s (fun x hx => hw x (List.mem_cons_of_mem c hx)) hs]
  | cons a p ih =>
    simp only [List.cons_append, slugCore, hp a (List.mem_cons_self a p)]
    simp only [Bool.false_eq_true, if_false, List.cons.injEq, true_and]
    exact ih (fun x hx => hp x (List.mem_cons_of_mem a hx))

/-- Every string `match(/[^\/]*.tgz$/g)` can return is non-empty (it ends in
the four matched characters `.tgz`-like), so the `if (!inFileName)` guard in
`archiveProject` — the only producer of the InvalidSourceName error — is
unreachable. -/
theorem tgzFirstMatch_ne_empty : ∀ ks s, tgzFirstMatch ks = some s → s ≠ "" := by
  intro ks s h
  simp only [tgzFirstMatch] at h
  split at h
  case _ c restRev _ =>
    split at h
    · exact absurd h (by simp)
    · simp only [Option.some.injEq] at h
      subst h
      intro hemp
      have hd : ((restRev.takeWhile (fun x => x ≠ '/')).reverse ++ [c, 't', 'g', 'z'] : List Char) = [] :=
        congrArg String.data hemp
      simp at hd
  case _ => exact absurd h (by simp)

/-! ## Claim theorems -/

/-- Claim C1.  The claim asserts that manifests whose normalized dependency
maps are equal as sets of (name, version) pairs always get the same cache key
because the hashing input is canonically serialized.  In the code the hashing
input is `JSON.stringify` of the map in its insertion order, so two manifests
with the same pairs in different insertion orders produce different checksums
and different archive identities: here `{a, b}` against `{b, a}` (normalized
maps are permutations of each other, yet both the md5 checksum and the value
returned by `archiveModules` differ). -/
theorem c1_key_depends_on_insertion_order :
    (clearedDependencies none [("a", "1.0.0"), ("b", "2.0.0")]).Perm
      (clearedDependencies none [("b", "2.0.0"), ("a", "1.0.0")]) ∧
    checksumOf (clearedDependencies none [("a", "1.0.0"), ("b", "2.0.0")]) ≠
      checksumOf (clearedDependencies none [("b", "2.0.0"), ("a", "1.0.0")]) ∧
    (archiveModules {} { source := ⟨"app", [("a", "1.0.0"), ("b", "2.0.0")]⟩ }).1 ≠
      (archiveModules {} { source := ⟨"app", [("b", "2.0.0"), ("a", "1.0.0")]⟩ }).1 := by
  refine ⟨by decide, by decide, by decide⟩

/-- Claim C2.  The claim asserts that on any mid-pipeline failure
`archiveProject` deletes the working root and re-raises the original error.
In src/index.js the promise chain has no rejection handler, so with a
compression failure the original error is indeed re-raised, but the working
root `rm -rf` never happens; the legacy orchestrator in src/unnamed/part_000
(same inputs, same injected failure) does both, which is what the claim
describes. -/
theorem c2_failure_leaves_working_root :
    (archiveProject { zipResult := .error (.jsError "CompressFailure") }
        { sourceUri := "s3://mybucket1/pkg-1.0.0.tgz", targetUri := "s3://outbucket9/drop" }).1
      = .error (.jsError "CompressFailure") ∧
    Effect.rmrf "/tmp/packager-XXXXXX" ∉
      (archiveProject { zipResult := .error (.jsError "CompressFailure") }
        { sourceUri := "s3://mybucket1/pkg-1.0.0.tgz", targetUri := "s3://outbucket9/drop" }).2 ∧
    (archiveProjectLegacy { zipResult := .error (.jsError "CompressFailure") }
        { sourceUri := "s3://mybucket1/pkg-1.0.0.tgz", targetUri := "s3://outbucket9/drop" }).1
      = .error (.jsError "CompressFailure") ∧
    Effect.rmrf "/tmp/packager-XXXXXX" ∈
      (archiveProjectLegacy { zipResult := .error (.jsError "CompressFailure") }
        { sourceUri := "s3://mybucket1/pkg-1.0.0.tgz", targetUri := "s3://outbucket9/drop" }).2 := by
  refine ⟨by decide, by decide, by decide, by decide⟩

/-- Claim C3.  With a cache configured and the probe succeeding (the entry
exists under the key computed from the manifest), `archiveModules` resolves
with the archive name of that entry, performs no installer invocation and no
compressor invocation, and the probe indeed addressed the key ending in that
archive name.  The final `utils.untar` (run only under `keep`) is assumed to
succeed. -/
theorem c3_cache_hit_builds_nothing (env : BuildEnv) (opts : ModulesOpts) (c : S3Loc)
    (hc : parseS3URIOpt opts.cacheUri = some c)
    (hp : env.probe = .ok ())
    (hu : env.untarResult = .ok ()) :
    (archiveModules env opts).1 = .ok (archiveNameOf env.runtimeLs opts.source) ∧
    (archiveModules env opts).2.any Effect.isInstall = false ∧
    (archiveModules env opts).2.any Effect.isTarCreate = false ∧
    Effect.s3probe (if opts.keep then "getObject" else "headObject") c.Bucket
      (dropLeadingSlashes (c.Key ++ "/" ++ archiveNameOf env.runtimeLs opts.source))
      ∈ (archiveModules env opts).2 := by
  obtain ⟨rl, tmp, pr, ir, tr, ur, unr⟩ := env
  obtain ⟨srcM, cu, kp, wd⟩ := opts
  simp only at hc hp hu
  subst hp hu
  cases kp <;> cases wd <;>
    simp [archiveModules, finishModules, hc, archiveNameOf, Effect.isInstall,
      Effect.isTarCreate, List.any_append]

/-- Witness for C3 at a concrete hit: manifest `My App`/`left-pad`, cache
`s3://cache-bkt/prefix`, successful `headObject` probe. -/
theorem c3_cache_hit_builds_nothing_w :
    (archiveModules { probe := .ok () }
        { source := ⟨"My App", [("left-pad", "1.0.0")]⟩, cacheUri := some "s3://cache-bkt/prefix" }).1
      = .ok (archiveNameOf none ⟨"My App", [("left-pad", "1.0.0")]⟩) ∧
    (archiveModules { probe := .ok () }
        { source := ⟨"My App", [("left-pad", "1.0.0")]⟩, cacheUri := some "s3://cache-bkt/prefix" }).2.any
        Effect.isInstall = false ∧
    (archiveModules { probe := .ok () }
        { source := ⟨"My App", [("left-pad", "1.0.0")]⟩, cacheUri := some "s3://cache-bkt/prefix" }).2.any
        Effect.isTarCreate = false ∧
    Effect.s3probe "headObject" "cache-bkt"
      (dropLeadingSlashes ("prefix" ++ "/" ++ archiveNameOf none ⟨"My App", [("left-pad", "1.0.0")]⟩))
      ∈ (archiveModules { probe := .ok () }
        { source := ⟨"My App", [("left-pad", "1.0.0")]⟩, cacheUri := some "s3://cache-bkt/prefix" }).2 :=
  c3_cache_hit_builds_nothing { probe := .ok () }
    { source := ⟨"My App", [("left-pad", "1.0.0")]⟩, cacheUri := some "s3://cache-bkt/prefix" }
    ⟨"cache-bkt", "prefix"⟩ (by decide) rfl rfl

/-- Claim C4.  With a cache configured, any probe failure is swallowed and
treated as a miss: the run is identical whatever the failure value is (the
builder does not distinguish causes), the install path runs, and when the
remaining collaborators succeed the run still resolves with the archive name
— the probe error itself is never propagated. -/
theorem c4_probe_failure_treated_as_miss (env : BuildEnv) (opts : ModulesOpts)
    (c : S3Loc) (e : JsError)
    (hc : parseS3URIOpt opts.cacheUri = some c)
    (hp : env.probe = .error e) :
    (∀ e₂, archiveModules { env with probe := .error e₂ } opts = archiveModules env opts) ∧
    (archiveModules env opts).2.any Effect.isInstall = true ∧
    (env.installResult = .ok () → env.tarResult = .ok () → env.uploadResult = .ok () →
      env.untarResult = .ok () →
      (archiveModules env opts).1 = .ok (archiveNameOf env.runtimeLs opts.source)) := by
  obtain ⟨rl, tmp, pr, ir, tr, ur, unr⟩ := env
  obtain ⟨srcM, cu, kp, wd⟩ := opts
  simp only at hc hp ⊢
  subst hp
  refine ⟨fun e₂ => ?_, ?_, fun hi ht hup hun => ?_⟩
  · simp [archiveModules, hc, missBuild, finishModules]
  · cases kp <;> cases wd <;> cases ir <;> cases tr <;> cases ur <;> cases unr <;>
      simp [archiveModules, hc, missBuild, finishModules, Effect.isInstall, List.any_append]
  · simp only at hi ht hup hun
    subst hi ht hup hun
    cases kp <;> cases wd <;>
      simp [archiveModules, hc, missBuild, finishModules, archiveNameOf]

/-- Witness for C4 at a concrete transient probe failure (`Timeout`). -/
theorem c4_probe_failure_treated_as_miss_w :
    (archiveModules { probe := .error (.jsError "Timeout") }
        { source := ⟨"app", [("left-pad", "1.0.0")]⟩, cacheUri := some "s3://cache-bkt/prefix" }).2.any
        Effect.isInstall = true ∧
    (archiveModules { probe := .error (.jsError "Timeout") }
        { source := ⟨"app", [("left-pad", "1.0.0")]⟩, cacheUri := some "s3://cache-bkt/prefix" }).1
      = .ok (archiveNameOf none ⟨"app", [("left-pad", "1.0.0")]⟩) :=
  ⟨(c4_probe_failure_treated_as_miss { probe := .error (.jsError "Timeout") }
      { source := ⟨"app", [("left-pad", "1.0.0")]⟩, cacheUri := some "s3://cache-bkt/prefix" }
      ⟨"cache-bkt", "prefix"⟩ (.jsError "Timeout") (by decide) rfl).2.1,
   (c4_probe_failure_treated_as_miss { probe := .error (.jsError "Timeout") }
      { source := ⟨"app", [("left-pad", "1.0.0")]⟩, cacheUri := some "s3://cache-bkt/prefix" }
      ⟨"cache-bkt", "prefix"⟩ (.jsError "Timeout") (by decide) rfl).2.2 rfl rfl rfl rfl⟩

/-- Counterexample to claim C5 as stated: with a configured cache, a miss, a
successful install and compression, and a failing upload, `archiveModules`
does NOT return the archive name — `await s3.upload(...)` is not guarded, so
the invocation rejects with the upload error even though the build succeeded
in-process (the compressor invocation is in the trace). -/
theorem c5_upload_failure_fails_build_cex :
    (archiveModules { uploadResult := .error (.jsError "UploadFailed") }
        { source := ⟨"app", [("left-pad", "1.0.0")]⟩, cacheUri := some "s3://cache-bkt/prefix" }).1
      = .error (.jsError "UploadFailed") ∧
    (archiveModules { uploadResult := .error (.jsError "UploadFailed") }
        { source := ⟨"app", [("left-pad", "1.0.0")]⟩, cacheUri := some "s3://cache-bkt/prefix" }).2.any
        Effect.isTarCreate = true := by
  refine ⟨by decide, by decide⟩

/-- Claim C5, amended: on the miss path with a cache configured, when install
and compression succeed but the cache upload fails, the upload error
propagates and fails the whole invocation; the archive name is returned only
when the upload also succeeds. -/
theorem c5_upload_failure_fails_build (env : BuildEnv) (opts : ModulesOpts)
    (c : S3Loc) (e u : JsError)
    (hc : parseS3URIOpt opts.cacheUri = some c)
    (hp : env.probe = .error e)
    (hi : env.installResult = .ok ())
    (ht : env.tarResult = .ok ())
    (hu : env.uploadResult = .error u) :
    (archiveModules env opts).1 = .error u ∧
    (archiveModules env opts).2.any Effect.isTarCreate = true := by
  obtain ⟨rl, tmp, pr, ir, tr, ur, unr⟩ := env
  obtain ⟨srcM, cu, kp, wd⟩ := opts
  simp only at hc hp hi ht hu
  subst hp hi ht hu
  cases kp <;> cases wd <;>
    simp [archiveModules, hc, missBuild, finishModules, Effect.isTarCreate, List.any_append]

/-- Witness for the amended C5 at a concrete denied upload. -/
theorem c5_upload_failure_fails_build_w :
    (archiveModules
        { probe := .error (.jsError "NoSuchKey"), uploadResult := .error (.jsError "AccessDenied") }
        { source := ⟨"app", []⟩, cacheUri := some "s3://cache-bkt/prefix" }).1
      = .error (.jsError "AccessDenied") ∧
    (archiveModules
        { probe := .error (.jsError "NoSuchKey"), uploadResult := .error (.jsError "AccessDenied") }
        { source := ⟨"app", []⟩, cacheUri := some "s3://cache-bkt/prefix" }).2.any
        Effect.isTarCreate = true :=
  c5_upload_failure_fails_build
    { probe := .error (.jsError "NoSuchKey"), uploadResult := .error (.jsError "AccessDenied") }
    { source := ⟨"app", []⟩, cacheUri := some "s3://cache-bkt/prefix" }
    ⟨"cache-bkt", "prefix"⟩ (.jsError "NoSuchKey") (.jsError "AccessDenied")
    (by decide) rfl rfl rfl rfl

/-- Counterexample to claim C6 as stated: normalizing a manifest whose
dependencies contain a preinstalled module (`aws-sdk`) changes the contents of
the ORIGINAL manifest's dependencies map — read back through the original's
reference after the call, the map has lost the excluded key instead of being
unchanged. -/
theorem c6_normalization_mutates_input_cex :
    (removePreinstalledModules none
        (fun _ => [("aws-sdk", "2.48.0"), ("left-pad", "1.0.0")]) "app" 0).2 0
      ≠ [("aws-sdk", "2.48.0"), ("left-pad", "1.0.0")] := by decide

/-- Claim C6, amended: `Object.assign({}, packageJson)` copies only the
top-level fields, so the normalized result shares the dependencies map with
the input; after the call the shared cell holds the map with every excluded
module deleted (hence the original is mutated exactly when an excluded module
occurred among its keys), while every other heap cell is untouched. -/
theorem c6_normalization_shares_deps_map (rl : Option String) (h : Nat → DepsMap)
    (name : String) (r : Nat) :
    (removePreinstalledModules rl h name r).1 = (name, r) ∧
    (removePreinstalledModules rl h name r).2 r = eraseKeys (h r) (availableModules rl) ∧
    ∀ r₂, r₂ ≠ r → (removePreinstalledModules rl h name r).2 r₂ = h r₂ :=
  ⟨rfl, by simp [removePreinstalledModules],
   fun r₂ hne => by simp [removePreinstalledModules, hne]⟩

/-- Witness for the amended C6: an unrelated heap cell is untouched. -/
theorem c6_normalization_shares_deps_map_w :
    (removePreinstalledModules none (fun _ => [("left-pad", "1.0.0")]) "app" 0).2 1
      = [("left-pad", "1.0.0")] :=
  (c6_normalization_shares_deps_map none (fun _ => [("left-pad", "1.0.0")]) "app" 0).2.2 1
    (by decide)

/-- Counterexample to claim C7 as stated: a name with two separated
whitespace runs keeps whitespace in its slug — `replace(/\s+/, '-')` has no
`g` flag, so only the first run becomes a hyphen and `"a b c"` slugs to
`"a-b c"`, which still contains whitespace. -/
theorem c7_slug_keeps_second_ws_run_cex :
    slugFirstWs "a b c" = "a-b c" ∧ (slugFirstWs "a b c").data.any isJsWs = true := by
  refine ⟨by decide, by decide⟩

/-- Claim C7, amended: the slug replaces exactly the first (leftmost,
maximal) whitespace run with a single hyphen and leaves the rest of the name
— later whitespace runs included — unchanged. -/
theorem c7_slug_replaces_first_ws_run (p w s : List Char)
    (hp : ∀ c ∈ p, isJsWs c = false) (hw0 : w ≠ [])
    (hw : ∀ c ∈ w, isJsWs c = true)
    (hs : ∀ c, s.head? = some c → isJsWs c = false) :
    slugFirstWs ⟨p ++ w ++ s⟩ = ⟨p ++ '-' :: s⟩ :=
  congrArg String.mk (slugCore_decomp p w s hp hw0 hw hs)

/-- Witness for the amended C7: `"my app"` slugs to `"my-app"`. -/
theorem c7_slug_replaces_first_ws_run_w :
    slugFirstWs ⟨['m', 'y', ' ', 'a', 'p', 'p']⟩ = ⟨['m', 'y', '-', 'a', 'p', 'p']⟩ :=
  c7_slug_replaces_first_ws_run ['m', 'y'] [' '] ['a', 'p', 'p']
    (by decide) (by decide) (by decide) (by decide)

/-- Counterexample to claim C8 as stated: in a successful retention run
(`keep = true`) the trace still deletes `package-modules` — the directory
holding the produced archive file and the installation subtree — so the
working tree is not fully retained; and in a non-retention run on an owned
working directory, the created root itself is never deleted (only its
`package-modules` subtree is). -/
theorem c8_retention_still_deletes_pckg_cex :
    (archiveModules {} { source := ⟨"app", [("left-pad", "1.0.0")]⟩, keep := true }).1
      = .ok (archiveNameOf none ⟨"app", [("left-pad", "1.0.0")]⟩) ∧
    Effect.rmrf "/tmp/modules-XXXXXX/package-modules" ∈
      (archiveModules {} { source := ⟨"app", [("left-pad", "1.0.0")]⟩, keep := true }).2 ∧
    Effect.rmrf "/tmp/modules-XXXXXX" ∉
      (archiveModules {} { source := ⟨"app", [("left-pad", "1.0.0")]⟩ }).2 := by
  refine ⟨by decide, by decide, by decide⟩

/-- Claim C8, amended: every successful `archiveModules` run ends by deleting
the `package-modules` subtree of the working directory, retention requested or
not; that deletion is the only `rm -rf` the pipeline performs (in particular
the working-directory root is never deleted), and under retention the archive
is first extracted into the working directory, so the extracted tree is what
remains. -/
theorem c8_pckg_subtree_always_deleted (env : BuildEnv) (opts : ModulesOpts)
    (hi : env.installResult = .ok ()) (ht : env.tarResult = .ok ())
    (hup : env.uploadResult = .ok ()) (hun : env.untarResult = .ok ()) :
    Effect.rmrf (opts.workDir.getD env.tmpWorkDir ++ "/package-modules")
      ∈ (archiveModules env opts).2 ∧
    (∀ d, Effect.rmrf d ∈ (archiveModules env opts).2 →
      d = opts.workDir.getD env.tmpWorkDir ++ "/package-modules") := by
  obtain ⟨rl, tmp, pr, ir, tr, ur, unr⟩ := env
  obtain ⟨srcM, cu, kp, wd⟩ := opts
  simp only at hi ht hup hun ⊢
  subst hi ht hup hun
  rcases hcu : parseS3URIOpt cu with _ | c <;> cases pr <;> cases kp <;> cases wd <;>
    simp [archiveModules, hcu, missBuild, finishModules, List.mem_append]

/-- Witness for the amended C8 at a concrete cache-free build. -/
theorem c8_pckg_subtree_always_deleted_w :
    Effect.rmrf "/tmp/modules-XXXXXX/package-modules"
      ∈ (archiveModules {} { source := ⟨"app", [("left-pad", "1.0.0")]⟩ }).2 :=
  (c8_pckg_subtree_always_deleted {} { source := ⟨"app", [("left-pad", "1.0.0")]⟩ }
    rfl rfl rfl rfl).1

/-- Claim C9.  A source whose final segment has the wrong extension
(`foo.tar`) makes `archiveProject` fail before any filesystem or network
activity (the trace is empty) — that much of the claim holds — but the error
is a `TypeError` from indexing the `null` result of `.match(...)` with `[0]`,
not the `InvalidSourceName` error: the guard that would produce
`InvalidSourceName` tests a string that is never empty when the match
succeeds (see `tgzFirstMatch_ne_empty`), so that rejection is unreachable. -/
theorem c9_bad_source_name_typeerror :
    archiveProject {} { sourceUri := "foo.tar", targetUri := "s3://outbucket9/drop" }
      = (.error .typeError, []) ∧
    archiveProjectLegacy {} { sourceUri := "s3://mybucket1/pkg.tar", targetUri := "s3://outbucket9/drop" }
      = (.error .typeError, []) := by
  refine ⟨by decide, by decide⟩

/-- Claim C10.  A cache uri that does not parse as a well-formed
`s3://bucket/key` location (null, a plain string, or a pattern-violating
bucket all parse to `null`, see `parseS3URI_malformed_examples`) makes
`archiveModules` behave exactly as with no cache configured: the whole run —
return value and effect trace — equals the `cacheUri = null` run, and no cache
probe and no cache upload occur. -/
theorem c10_malformed_cache_uri_ignored (env : BuildEnv) (opts : ModulesOpts)
    (hc : parseS3URIOpt opts.cacheUri = none) :
    archiveModules env opts = archiveModules env { opts with cacheUri := none } ∧
    (archiveModules env opts).2.any Effect.isS3probe = false ∧
    (archiveModules env opts).2.any Effect.isS3upload = false := by
  obtain ⟨rl, tmp, pr, ir, tr, ur, unr⟩ := env
  obtain ⟨srcM, cu, kp, wd⟩ := opts
  simp only at hc ⊢
  refine ⟨?_, ?_, ?_⟩
  all_goals
    cases kp <;> cases wd <;> cases ir <;> cases tr <;> cases unr <;>
      simp [archiveModules, hc, parseS3URIOpt_none, missBuild, finishModules,
        Effect.isS3probe, Effect.isS3upload, List.any_append]

/-- Witness for C10 at a concrete malformed cache uri (a plain filesystem
path). -/
theorem c10_malformed_cache_uri_ignored_w :
    archiveModules {}
        { source := ⟨"app", [("left-pad", "1.0.0")]⟩, cacheUri := some "/var/task/cache" }
      = archiveModules {} { source := ⟨"app", [("left-pad", "1.0.0")]⟩, cacheUri := none } ∧
    (archiveModules {}
        { source := ⟨"app", [("left-pad", "1.0.0")]⟩, cacheUri := some "/var/task/cache" }).2.any
        Effect.isS3probe = false ∧
    (archiveModules {}
        { source := ⟨"app", [("left-pad", "1.0.0")]⟩, cacheUri := some "/var/task/cache" }).2.any
        Effect.isS3upload = false :=
  c10_malformed_cache_uri_ignored {}
    { source := ⟨"app", [("left-pad", "1.0.0")]⟩, cacheUri := some "/var/task/cache" }
    (by decide)

end NPkg
